import Mathlib

/-
Shallow embedding of pyspear/bayesian/model.py.

The module builds Bayesian model pieces for a light-curve dataset: a sigma
prior, a tau prior, a nu prior and an observed likelihood node that calls an
external PRH likelihood engine.  Python float values are modelled as
rationals (every float is a rational, and the module only compares and does
field arithmetic on them); the expressions np.log and np.sqrt, which the
module never branches on, are kept symbolic (LogDensity.negLog, PyNum.sqrtQ)
or interpreted into the reals where a claim speaks about real analysis.
Python exceptions are modelled with an Except monad: RuntimeError raised by
the prior dispatch, and UnboundLocalError for reads of never-assigned local
variables.  The external PRH collaborator is an abstract function parameter.
-/

/-- Dataset object (zyLC).  The builders read the fields cont_cad, rj and
marr; every other attribute of the Python object is abstracted into the
opaque field rest. -/
structure Zydata where
  cont_cad : ℚ
  rj : ℚ
  marr : List ℚ
  rest : ℕ
  deriving DecidableEq

/-- numpy max over the magnitude array (0 on the empty list, which the
source would reject before reaching this module). -/
def npMax : List ℚ → ℚ
  | [] => 0
  | x :: xs => xs.foldl max x

/-- numpy min over the magnitude array. -/
def npMin : List ℚ → ℚ
  | [] => 0
  | x :: xs => xs.foldl min x

/-- ry = zydata.marr.max() - zydata.marr.min() as computed by both
builders. -/
def ryOf (z : Zydata) : ℚ := npMax z.marr - npMin z.marr

/-- A Python argument that is either a string or a number; the prior
selector arguments use_sigprior, use_tauprior, use_nuprior have this type. -/
inductive PyArg where
  | str (s : String)
  | num (x : ℚ)
  deriving DecidableEq

/-- Python float(x) on a selector argument: numbers convert to themselves,
strings go through the abstract conversion pf, which returns none exactly
when float() would raise. -/
def pyFloat (pf : String → Option ℚ) : PyArg → Option ℚ
  | PyArg.str s => pf s
  | PyArg.num x => some x

/-- Result of one evaluation of a hand-written logp function: a finite
value -log(x) kept symbolically, -np.Inf, or the Python None produced when
the function body falls through every branch. -/
inductive LogDensity where
  | negLog (x : ℚ)
  | negInf
  | pynone
  deriving DecidableEq

/-- A numeric initial value: either a rational or the symbolic square root
of a rational (np.sqrt applied to a rational). -/
inductive PyNum where
  | q (x : ℚ)
  | sqrtQ (x : ℚ)
  deriving DecidableEq

/-- The deterministic transform applied to invsigsq to obtain sigma:
1/sqrt(invsigsq) in the Vague and Gamma branches, the clamped
1/sqrt(abs(invsigsq)) in the None branch. -/
inductive SigmaTransform where
  | invSqrt
  | clamped
  deriving DecidableEq

/-- Real semantics of the sigma transform. -/
noncomputable def SigmaTransform.eval : SigmaTransform → ℚ → ℝ
  | SigmaTransform.invSqrt, x => 1 / Real.sqrt (x : ℝ)
  | SigmaTransform.clamped, x =>
      if |x| < 1 / 1000000 then (1000000 : ℝ) else 1 / Real.sqrt ((|x| : ℚ) : ℝ)

/-- The sigma node built by the dispatch on use_sigprior. -/
inductive SigmaNode where
  | stochastic (init : PyNum) (logp : ℚ → LogDensity)
  | detFromGamma (alpha beta init : ℚ) (t : SigmaTransform)
  | detFromUninformative (init : ℚ) (t : SigmaTransform)
  | fixed (x : ℚ)

/-- The tau node built by the dispatch on use_tauprior. -/
inductive TauNode where
  | stochastic (init : PyNum) (logp : ℚ → LogDensity)
  | gammaPrior (alpha beta : ℚ) (init : PyNum)
  | invGammaPrior (alpha : ℚ) (beta init : PyNum)
  | uninformative (init : PyNum)
  | fixed (x : ℚ)

/-- The nu node built by the dispatch on use_nuprior. -/
inductive NuNode where
  | uniform (lo hi init : ℚ)
  | fixed (x : ℚ)
  deriving DecidableEq

/-- Python exceptions the builders can raise: the explicit RuntimeError of
the prior dispatch, and the UnboundLocalError produced by reading a local
variable that no branch assigned. -/
inductive PyErr where
  | runtimeError (param : String)
  | unboundLocal (lvar : String)
  deriving DecidableEq

/-- Whether an error is the explicitly raised RuntimeError. -/
def PyErr.isRuntimeError : PyErr → Bool
  | PyErr.runtimeError _ => true
  | PyErr.unboundLocal _ => false

/-- The logp body of the CSK sigma prior: -log(value) for positive value,
-inf for negative value, and a fall-through (Python None) otherwise. -/
def sigmaLogpCSK (value : ℚ) : LogDensity :=
  if 0 < value then LogDensity.negLog value
  else if value < 0 then LogDensity.negInf
  else LogDensity.pynone

/-- The logp body of the CSK tau prior: the double-lobed log prior. -/
def tauLogpCSK (cadence value : ℚ) : LogDensity :=
  if value < 10000 ∧ cadence < value then LogDensity.negLog (value / cadence)
  else if 0 < value ∧ value ≤ cadence then LogDensity.negLog (cadence / value)
  else LogDensity.negInf

/-- 1/(ry/4)^2, the initial value of invsigsq (and the Gamma beta in the
Gamma branch). -/
def invRySq (ry : ℚ) : ℚ := 1 / (ry / 4) ^ 2

/-- Dispatch on use_sigprior (lines 39-72 and 197-229 of model.py). -/
def resolveSigma (pf : String → Option ℚ) (ry : ℚ) (arg : PyArg) :
    Except PyErr SigmaNode :=
  if arg = PyArg.str ("CSK") then
    Except.ok (SigmaNode.stochastic (PyNum.q (ry / 4)) sigmaLogpCSK)
  else if arg = PyArg.str ("Vague") then
    Except.ok (SigmaNode.detFromGamma (1 / 1000) (1 / 1000) (invRySq ry)
      SigmaTransform.invSqrt)
  else if arg = PyArg.str ("Gamma") then
    Except.ok (SigmaNode.detFromGamma 2 (invRySq ry) (invRySq ry)
      SigmaTransform.invSqrt)
  else if arg = PyArg.str ("None") then
    Except.ok (SigmaNode.detFromUninformative (invRySq ry) SigmaTransform.clamped)
  else
    match pyFloat pf arg with
    | some x => Except.ok (SigmaNode.fixed x)
    | none => Except.error (PyErr.runtimeError ("sigma"))

/-- Dispatch on use_tauprior (lines 75-100 and 232-257 of model.py). -/
def resolveTau (pf : String → Option ℚ) (cadence rx : ℚ) (arg : PyArg) :
    Except PyErr TauNode :=
  if arg = PyArg.str ("CSK") then
    Except.ok (TauNode.stochastic (PyNum.sqrtQ (rx * cadence)) (tauLogpCSK cadence))
  else if arg = PyArg.str ("Vague") then
    Except.ok (TauNode.gammaPrior (1 / 1000) (1 / 1000) (PyNum.sqrtQ (rx * cadence)))
  else if arg = PyArg.str ("IG") then
    Except.ok (TauNode.invGammaPrior 2 (PyNum.sqrtQ (rx * cadence))
      (PyNum.sqrtQ (rx * cadence)))
  else if arg = PyArg.str ("None") then
    Except.ok (TauNode.uninformative (PyNum.sqrtQ (rx * cadence)))
  else
    match pyFloat pf arg with
    | some x => Except.ok (TauNode.fixed x)
    | none => Except.error (PyErr.runtimeError ("tau"))

/-- Dispatch on use_nuprior in make_model_powexp (lines 103-112): the
Uniform prior has the fixed bounds 0 and 2 and initial value 1. -/
def resolveNuPowexp (pf : String → Option ℚ) (arg : PyArg) :
    Except PyErr NuNode :=
  if arg = PyArg.str ("Uniform") then
    Except.ok (NuNode.uniform 0 2 1)
  else
    match pyFloat pf arg with
    | some x => Except.ok (NuNode.fixed x)
    | none => Except.error (PyErr.runtimeError ("nu"))

/-- The covfunc-dependent initial value of nu (lines 171-178); none models
the fall-through that leaves the local nu_init unassigned. -/
def nuInitFor (covfunc : String) : Option ℚ :=
  if covfunc = "pow_exp" then some 1
  else if covfunc = "matern" then some (1 / 2)
  else if covfunc = "pareto_exp" then some (3 / 2)
  else if covfunc = "kepler_exp" then some (1 / 10)
  else none

/-- The covfunc-dependent truncation limits for nu (lines 181-192); none
models the fall-through that leaves nu_min and nu_max unassigned. -/
def nuLimitsFor (covfunc : String) : Option (ℚ × ℚ) :=
  if covfunc = "pow_exp" then some (0, 1999 / 1000)
  else if covfunc = "matern" then some (1 / 1000, 2)
  else if covfunc = "pareto_exp" then some (1 / 1000, 2)
  else if covfunc = "kepler_exp" then some (1 / 1000, 4 / 5)
  else none

/-- Dispatch on use_nuprior in make_model_cov3par (lines 260-269).  The
Uniform branch reads the locals nu_min, nu_max and nu_init, in that order,
which raises UnboundLocalError when the corresponding assignment branch was
skipped. -/
def resolveNuCov3par (pf : String → Option ℚ) (limits : Option (ℚ × ℚ))
    (nuInit : Option ℚ) (arg : PyArg) : Except PyErr NuNode :=
  if arg = PyArg.str ("Uniform") then
    match limits with
    | none => Except.error (PyErr.unboundLocal ("nu_min"))
    | some (lo, hi) =>
      match nuInit with
      | none => Except.error (PyErr.unboundLocal ("nu_init"))
      | some v => Except.ok (NuNode.uniform lo hi v)
  else
    match pyFloat pf arg with
    | some x => Except.ok (NuNode.fixed x)
    | none => Except.error (PyErr.runtimeError ("nu"))

/-- The par_init block of make_model_cov3par (lines 168-179): when par_init
is None it is rebuilt as [sigma_init, tau_init, nu_init], reading the local
nu_init, which is unassigned for an unrecognized covfunc; the second
component records whether the local nu_init was assigned. -/
def parInitResolved (covfunc : String) (ry rxc : ℚ) :
    Option (List PyNum) → Except PyErr (List PyNum × Option ℚ)
  | Option.none =>
      match nuInitFor covfunc with
      | some ni =>
          Except.ok ([PyNum.q (ry / 4), PyNum.sqrtQ rxc, PyNum.q ni], some ni)
      | none => Except.error (PyErr.unboundLocal ("nu_init"))
  | some given => Except.ok (given, Option.none)

/-- The assembled model pieces: the three prior nodes, the initial guess of
the likelihood node, and the covariance-function name and dataset captured
by the likelihood closure. -/
structure Model where
  sigma : SigmaNode
  tau : TauNode
  nu : NuNode
  guess : List PyNum
  covfunc : String
  zydata : Zydata

/-- Every component of a model except the captured dataset. -/
def Model.core (m : Model) : SigmaNode × TauNode × NuNode × List PyNum × String :=
  (m.sigma, m.tau, m.nu, m.guess, m.covfunc)

/-- make_model_powexp (lines 5-127 of model.py). -/
def makeModelPowexp (pf : String → Option ℚ) (z : Zydata) (sp tp np : PyArg) :
    Except PyErr Model :=
  match resolveSigma pf (ryOf z) sp with
  | Except.error e => Except.error e
  | Except.ok sigma =>
    match resolveTau pf z.cont_cad z.rj tp with
    | Except.error e => Except.error e
    | Except.ok tau =>
      match resolveNuPowexp pf np with
      | Except.error e => Except.error e
      | Except.ok nu =>
        Except.ok { sigma := sigma, tau := tau, nu := nu,
                    guess := [PyNum.sqrtQ (z.rj * z.cont_cad),
                              PyNum.q (ryOf z / 4), PyNum.q 1],
                    covfunc := "pow_exp", zydata := z }

/-- The prior-dispatch and model-assembly part of make_model_cov3par
(lines 196-282 of model.py), after the par_init block has produced the
initial guess and recorded whether the local nu_init was assigned. -/
def makeModelCov3parRest (pf : String → Option ℚ) (z : Zydata)
    (covfunc : String) (guess : List PyNum) (nuInit : Option ℚ)
    (sp tp np : PyArg) : Except PyErr Model :=
  match resolveSigma pf (ryOf z) sp with
  | Except.error e => Except.error e
  | Except.ok sigma =>
    match resolveTau pf z.cont_cad z.rj tp with
    | Except.error e => Except.error e
    | Except.ok tau =>
      match resolveNuCov3par pf (nuLimitsFor covfunc) nuInit np with
      | Except.error e => Except.error e
      | Except.ok nu =>
        Except.ok { sigma := sigma, tau := tau, nu := nu, guess := guess,
                    covfunc := covfunc, zydata := z }

/-- make_model_cov3par (lines 130-282 of model.py). -/
def makeModelCov3par (pf : String → Option ℚ) (z : Zydata) (covfunc : String)
    (sp tp np : PyArg) (parInit : Option (List PyNum)) : Except PyErr Model :=
  match parInitResolved covfunc (ryOf z) (z.rj * z.cont_cad) parInit with
  | Except.error e => Except.error e
  | Except.ok gn => makeModelCov3parRest pf z covfunc gn.1 gn.2 sp tp np

/-- One construction of the external PRH likelihood object: the dataset,
covariance-function name and parameter triple it was built from. -/
structure PRHCall where
  zy : Zydata
  covfunc : String
  sigma : ℚ
  tau : ℚ
  nu : ℚ
  deriving DecidableEq

/-- The logp body shared by the observed nodes model_powexp and
model_cov3par (lines 118-125 and 275-280): build par = [sigma, tau, nu],
construct one PRH object from its entries, call loglike_prh once and return
the first element of the returned tuple.  The external engine is abstract;
the second component records the list of PRH constructions performed. -/
def modelLogp {Aux : Type} (engine : PRHCall → ℝ × Aux) (zy : Zydata)
    (covfunc : String) (value : List ℚ) (sigma tau nu : ℚ) : ℝ × List PRHCall :=
  let par : List ℚ := [sigma, tau, nu]
  let prhCall : PRHCall :=
    ⟨zy, covfunc, par.headI, (par.drop 1).headI, (par.drop 2).headI⟩
  ((engine prhCall).1, [prhCall])

/-- The likelihood closure of a built model, as a function of the abstract
engine and of the sampled parameter values. -/
def Model.loglike {Aux : Type} (m : Model) (engine : PRHCall → ℝ × Aux)
    (value : List ℚ) (sigma tau nu : ℚ) : ℝ × List PRHCall :=
  modelLogp engine m.zydata m.covfunc value sigma tau nu

/-- A concrete dataset used to instantiate hypotheses: cadence 1, time span
4, magnitudes 0 and 2. -/
def z0 : Zydata := ⟨1, 4, [0, 2], 0⟩

/-- A concrete float conversion: only the string 3.5 converts. -/
def pf0 : String → Option ℚ := fun s => if s = "3.5" then some (7 / 2) else none

/-- The model core produced by make_model_powexp as a function of the only
dataset fields it reads: cont_cad, rj and marr. -/
def powexpCore (pf : String → Option ℚ) (cadence rx : ℚ) (marr : List ℚ)
    (sp tp np : PyArg) :
    Except PyErr (SigmaNode × TauNode × NuNode × List PyNum × String) :=
  match resolveSigma pf (npMax marr - npMin marr) sp with
  | Except.error e => Except.error e
  | Except.ok sigma =>
    match resolveTau pf cadence rx tp with
    | Except.error e => Except.error e
    | Except.ok tau =>
      match resolveNuPowexp pf np with
      | Except.error e => Except.error e
      | Except.ok nu =>
        Except.ok (sigma, tau, nu,
          [PyNum.sqrtQ (rx * cadence),
           PyNum.q ((npMax marr - npMin marr) / 4), PyNum.q 1], "pow_exp")

/-- The part of the cov3par model core after the par_init block, as a
function of the only dataset fields the builder reads. -/
def cov3parCoreRest (pf : String → Option ℚ) (cadence rx : ℚ) (marr : List ℚ)
    (cf : String) (guess : List PyNum) (nuInit : Option ℚ) (sp tp np : PyArg) :
    Except PyErr (SigmaNode × TauNode × NuNode × List PyNum × String) :=
  match resolveSigma pf (npMax marr - npMin marr) sp with
  | Except.error e => Except.error e
  | Except.ok sigma =>
    match resolveTau pf cadence rx tp with
    | Except.error e => Except.error e
    | Except.ok tau =>
      match resolveNuCov3par pf (nuLimitsFor cf) nuInit np with
      | Except.error e => Except.error e
      | Except.ok nu => Except.ok (sigma, tau, nu, guess, cf)

/-- The model core produced by make_model_cov3par as a function of the only
dataset fields it reads. -/
def cov3parCore (pf : String → Option ℚ) (cadence rx : ℚ) (marr : List ℚ)
    (cf : String) (sp tp np : PyArg) (gi : Option (List PyNum)) :
    Except PyErr (SigmaNode × TauNode × NuNode × List PyNum × String) :=
  match parInitResolved cf (npMax marr - npMin marr) (rx * cadence) gi with
  | Except.error e => Except.error e
  | Except.ok gn => cov3parCoreRest pf cadence rx marr cf gn.1 gn.2 sp tp np

/-- C1: the observed likelihood node computes its log-probability by
constructing exactly one PRH instance from the selected covariance-function
name and the parameters sigma, tau, nu, calling its loglike method once and
returning the first element of the returned tuple; the value stored in the
node (the initial guess) does not affect the result; the node built by
make_model_powexp uses the name pow_exp and the node built by
make_model_cov3par uses its covfunc argument, each capturing the dataset. -/
theorem model_loglike_spec {Aux : Type} (engine : PRHCall → ℝ × Aux)
    (z : Zydata) (cf : String) (v w : List ℚ) (sigma tau nu : ℚ)
    (pf : String → Option ℚ) (sp tp np : PyArg) (gi : Option (List PyNum)) :
    (modelLogp engine z cf v sigma tau nu
        = ((engine ⟨z, cf, sigma, tau, nu⟩).1, [⟨z, cf, sigma, tau, nu⟩]))
    ∧ modelLogp engine z cf v sigma tau nu = modelLogp engine z cf w sigma tau nu
    ∧ ((makeModelPowexp pf z sp tp np).map (fun m => (m.covfunc, m.zydata))
        = (makeModelPowexp pf z sp tp np).map (fun _ => ("pow_exp", z)))
    ∧ ((makeModelCov3par pf z cf sp tp np gi).map (fun m => (m.covfunc, m.zydata))
        = (makeModelCov3par pf z cf sp tp np gi).map (fun _ => (cf, z))) := by
  refine ⟨rfl, rfl, ?_, ?_⟩
  · unfold makeModelPowexp
    cases resolveSigma pf (ryOf z) sp with
    | error e => rfl
    | ok s =>
      cases resolveTau pf z.cont_cad z.rj tp with
      | error e => rfl
      | ok t =>
        cases resolveNuPowexp pf np with
        | error e => rfl
        | ok n => rfl
  · unfold makeModelCov3par
    cases parInitResolved cf (ryOf z) (z.rj * z.cont_cad) gi with
    | error e => rfl
    | ok p =>
      show (makeModelCov3parRest pf z cf p.1 p.2 sp tp np).map _
          = (makeModelCov3parRest pf z cf p.1 p.2 sp tp np).map _
      unfold makeModelCov3parRest
      cases resolveSigma pf (ryOf z) sp with
      | error e => rfl
      | ok s =>
        cases resolveTau pf z.cont_cad z.rj tp with
        | error e => rfl
        | ok t =>
          cases resolveNuCov3par pf (nuLimitsFor cf) p.2 np with
          | error e => rfl
          | ok n => rfl

/-- C3: with par_init left as None and use_nuprior Uniform, the nu prior of
make_model_cov3par is Uniform with initial value 1.0, 0.5, 1.5, 0.1 and
truncation limits (0.0, 1.999), (0.001, 2.000), (0.001, 2.000),
(0.001, 0.800) for pow_exp, matern, pareto_exp, kepler_exp respectively. -/
theorem nu_limits_spec (pf : String → Option ℚ) (z : Zydata) :
    ((makeModelCov3par pf z ("pow_exp") (PyArg.str ("CSK")) (PyArg.str ("CSK"))
        (PyArg.str ("Uniform")) Option.none).map Model.nu
      = Except.ok (NuNode.uniform 0 (1999 / 1000) 1))
    ∧ ((makeModelCov3par pf z ("matern") (PyArg.str ("CSK")) (PyArg.str ("CSK"))
        (PyArg.str ("Uniform")) Option.none).map Model.nu
      = Except.ok (NuNode.uniform (1 / 1000) 2 (1 / 2)))
    ∧ ((makeModelCov3par pf z ("pareto_exp") (PyArg.str ("CSK")) (PyArg.str ("CSK"))
        (PyArg.str ("Uniform")) Option.none).map Model.nu
      = Except.ok (NuNode.uniform (1 / 1000) 2 (3 / 2)))
    ∧ ((makeModelCov3par pf z ("kepler_exp") (PyArg.str ("CSK")) (PyArg.str ("CSK"))
        (PyArg.str ("Uniform")) Option.none).map Model.nu
      = Except.ok (NuNode.uniform (1 / 1000) (4 / 5) (1 / 10))) :=
  ⟨rfl, rfl, rfl, rfl⟩

/-- C4 counterexample: at the unrecognized covariance-function name cov_foo,
make_model_cov3par with par_init None fails with the unbound-local error on
nu_init, which is not the explicitly raised RuntimeError of the prior
dispatch. -/
theorem cov3par_badcov_cex :
    makeModelCov3par pf0 z0 ("cov_foo") (PyArg.str ("CSK")) (PyArg.str ("CSK"))
        (PyArg.str ("Uniform")) Option.none
      = Except.error (PyErr.unboundLocal ("nu_init"))
    ∧ PyErr.isRuntimeError (PyErr.unboundLocal ("nu_init")) = false :=
  ⟨rfl, rfl⟩

/-- C4 amended: for every covfunc outside the four recognized names,
make_model_cov3par with par_init None fails while rebuilding par_init, by
reading the never-assigned local nu_init (an UnboundLocalError), before any
prior dispatch and not through an explicit raise. -/
theorem cov3par_badcov_amended (pf : String → Option ℚ) (z : Zydata)
    (cf : String) (sp tp np : PyArg)
    (h1 : cf ≠ "pow_exp") (h2 : cf ≠ "matern") (h3 : cf ≠ "pareto_exp")
    (h4 : cf ≠ "kepler_exp") :
    makeModelCov3par pf z cf sp tp np Option.none
      = Except.error (PyErr.unboundLocal ("nu_init")) := by
  unfold makeModelCov3par parInitResolved nuInitFor
  rw [if_neg h1, if_neg h2, if_neg h3, if_neg h4]

/-- C4 amended, witness at the covariance-function name cov_foo. -/
theorem cov3par_badcov_amended_witness :
    makeModelCov3par pf0 z0 ("cov_foo") (PyArg.num 3) (PyArg.num 3)
        (PyArg.num 3) Option.none
      = Except.error (PyErr.unboundLocal ("nu_init")) :=
  cov3par_badcov_amended pf0 z0 ("cov_foo") (PyArg.num 3) (PyArg.num 3)
    (PyArg.num 3) (by decide) (by decide) (by decide) (by decide)

/-- C8: the CSK sigma logp is partial at 0: it returns the Python None
there, and only there; both builders install this logp under the CSK
sigma prior. -/
theorem sigma_csk_zero_spec (pf : String → Option ℚ) (z : Zydata) :
    sigmaLogpCSK 0 = LogDensity.pynone
    ∧ (∀ v : ℚ, sigmaLogpCSK v = LogDensity.pynone ↔ v = 0)
    ∧ ((makeModelPowexp pf z (PyArg.str ("CSK")) (PyArg.str ("CSK"))
          (PyArg.str ("Uniform"))).map Model.sigma
        = Except.ok (SigmaNode.stochastic (PyNum.q (ryOf z / 4)) sigmaLogpCSK))
    ∧ ((makeModelCov3par pf z ("pow_exp") (PyArg.str ("CSK")) (PyArg.str ("CSK"))
          (PyArg.str ("Uniform")) Option.none).map Model.sigma
        = Except.ok (SigmaNode.stochastic (PyNum.q (ryOf z / 4)) sigmaLogpCSK)) := by
  refine ⟨rfl, ?_, rfl, rfl⟩
  intro v
  constructor
  · intro hh
    by_contra hne
    rcases lt_trichotomy v 0 with h | h | h
    · unfold sigmaLogpCSK at hh
      rw [if_neg (by linarith), if_pos h] at hh
      cases hh
    · exact hne h
    · unfold sigmaLogpCSK at hh
      rw [if_pos h] at hh
      cases hh
  · intro hh
    subst hh
    rfl

/-- C8 witness: evaluating the CSK sigma logp at 0 yields the Python
None. -/
theorem sigma_csk_zero_witness : sigmaLogpCSK 0 = LogDensity.pynone :=
  (sigma_csk_zero_spec pf0 z0).1

lemma resolveSigma_bad (pf : String → Option ℚ) (ry : ℚ) (arg : PyArg)
    (h1 : arg ≠ PyArg.str ("CSK")) (h2 : arg ≠ PyArg.str ("Vague"))
    (h3 : arg ≠ PyArg.str ("Gamma")) (h4 : arg ≠ PyArg.str ("None"))
    (h5 : pyFloat pf arg = none) :
    resolveSigma pf ry arg = Except.error (PyErr.runtimeError ("sigma")) := by
  unfold resolveSigma
  rw [if_neg h1, if_neg h2, if_neg h3, if_neg h4, h5]

lemma resolveSigma_fix (pf : String → Option ℚ) (ry : ℚ) (arg : PyArg) (x : ℚ)
    (h1 : arg ≠ PyArg.str ("CSK")) (h2 : arg ≠ PyArg.str ("Vague"))
    (h3 : arg ≠ PyArg.str ("Gamma")) (h4 : arg ≠ PyArg.str ("None"))
    (h5 : pyFloat pf arg = some x) :
    resolveSigma pf ry arg = Except.ok (SigmaNode.fixed x) := by
  unfold resolveSigma
  rw [if_neg h1, if_neg h2, if_neg h3, if_neg h4, h5]

lemma resolveTau_bad (pf : String → Option ℚ) (cadence rx : ℚ) (arg : PyArg)
    (h1 : arg ≠ PyArg.str ("CSK")) (h2 : arg ≠ PyArg.str ("Vague"))
    (h3 : arg ≠ PyArg.str ("IG")) (h4 : arg ≠ PyArg.str ("None"))
    (h5 : pyFloat pf arg = none) :
    resolveTau pf cadence rx arg = Except.error (PyErr.runtimeError ("tau")) := by
  unfold resolveTau
  rw [if_neg h1, if_neg h2, if_neg h3, if_neg h4, h5]

lemma resolveTau_fix (pf : String → Option ℚ) (cadence rx : ℚ) (arg : PyArg)
    (x : ℚ)
    (h1 : arg ≠ PyArg.str ("CSK")) (h2 : arg ≠ PyArg.str ("Vague"))
    (h3 : arg ≠ PyArg.str ("IG")) (h4 : arg ≠ PyArg.str ("None"))
    (h5 : pyFloat pf arg = some x) :
    resolveTau pf cadence rx arg = Except.ok (TauNode.fixed x) := by
  unfold resolveTau
  rw [if_neg h1, if_neg h2, if_neg h3, if_neg h4, h5]

lemma resolveNuPowexp_bad (pf : String → Option ℚ) (arg : PyArg)
    (h1 : arg ≠ PyArg.str ("Uniform")) (h5 : pyFloat pf arg = none) :
    resolveNuPowexp pf arg = Except.error (PyErr.runtimeError ("nu")) := by
  unfold resolveNuPowexp
  rw [if_neg h1, h5]

lemma resolveNuPowexp_fix (pf : String → Option ℚ) (arg : PyArg) (x : ℚ)
    (h1 : arg ≠ PyArg.str ("Uniform")) (h5 : pyFloat pf arg = some x) :
    resolveNuPowexp pf arg = Except.ok (NuNode.fixed x) := by
  unfold resolveNuPowexp
  rw [if_neg h1, h5]

lemma resolveNuCov3par_bad (pf : String → Option ℚ) (limits : Option (ℚ × ℚ))
    (nuInit : Option ℚ) (arg : PyArg)
    (h1 : arg ≠ PyArg.str ("Uniform")) (h5 : pyFloat pf arg = none) :
    resolveNuCov3par pf limits nuInit arg
      = Except.error (PyErr.runtimeError ("nu")) := by
  unfold resolveNuCov3par
  rw [if_neg h1, h5]

lemma resolveNuCov3par_fix (pf : String → Option ℚ) (limits : Option (ℚ × ℚ))
    (nuInit : Option ℚ) (arg : PyArg) (x : ℚ)
    (h1 : arg ≠ PyArg.str ("Uniform")) (h5 : pyFloat pf arg = some x) :
    resolveNuCov3par pf limits nuInit arg = Except.ok (NuNode.fixed x) := by
  unfold resolveNuCov3par
  rw [if_neg h1, h5]

lemma parInitResolved_given (cf : String) (ry rxc : ℚ) (given : List PyNum) :
    parInitResolved cf ry rxc (some given) = Except.ok (given, Option.none) :=
  rfl

lemma parInitResolved_built (cf : String) (ry rxc : ℚ) (ni : ℚ)
    (h : nuInitFor cf = some ni) :
    parInitResolved cf ry rxc Option.none
      = Except.ok ([PyNum.q (ry / 4), PyNum.sqrtQ rxc, PyNum.q ni], some ni) := by
  unfold parInitResolved
  rw [h]

lemma makeModelCov3par_step (pf : String → Option ℚ) (z : Zydata) (cf : String)
    (sp tp np : PyArg) (gi : Option (List PyNum)) (gn : List PyNum × Option ℚ)
    (h : parInitResolved cf (ryOf z) (z.rj * z.cont_cad) gi = Except.ok gn) :
    makeModelCov3par pf z cf sp tp np gi
      = makeModelCov3parRest pf z cf gn.1 gn.2 sp tp np := by
  unfold makeModelCov3par
  rw [h]

lemma rest_sigma_bad (pf : String → Option ℚ) (z : Zydata) (cf : String)
    (guess : List PyNum) (nuInit : Option ℚ) (sp tp np : PyArg)
    (h1 : sp ≠ PyArg.str ("CSK")) (h2 : sp ≠ PyArg.str ("Vague"))
    (h3 : sp ≠ PyArg.str ("Gamma")) (h4 : sp ≠ PyArg.str ("None"))
    (h5 : pyFloat pf sp = none) :
    makeModelCov3parRest pf z cf guess nuInit sp tp np
      = Except.error (PyErr.runtimeError ("sigma")) := by
  unfold makeModelCov3parRest
  rw [resolveSigma_bad pf (ryOf z) sp h1 h2 h3 h4 h5]

lemma rest_tau_bad (pf : String → Option ℚ) (z : Zydata) (cf : String)
    (guess : List PyNum) (nuInit : Option ℚ) (tp np : PyArg)
    (h1 : tp ≠ PyArg.str ("CSK")) (h2 : tp ≠ PyArg.str ("Vague"))
    (h3 : tp ≠ PyArg.str ("IG")) (h4 : tp ≠ PyArg.str ("None"))
    (h5 : pyFloat pf tp = none) :
    makeModelCov3parRest pf z cf guess nuInit (PyArg.str ("CSK")) tp np
      = Except.error (PyErr.runtimeError ("tau")) := by
  unfold makeModelCov3parRest
  rw [show resolveSigma pf (ryOf z) (PyArg.str ("CSK"))
      = Except.ok (SigmaNode.stochastic (PyNum.q (ryOf z / 4)) sigmaLogpCSK)
    from rfl]
  rw [resolveTau_bad pf z.cont_cad z.rj tp h1 h2 h3 h4 h5]

lemma rest_nu_bad (pf : String → Option ℚ) (z : Zydata) (cf : String)
    (guess : List PyNum) (nuInit : Option ℚ) (np : PyArg)
    (h1 : np ≠ PyArg.str ("Uniform")) (h5 : pyFloat pf np = none) :
    makeModelCov3parRest pf z cf guess nuInit (PyArg.str ("CSK"))
        (PyArg.str ("CSK")) np
      = Except.error (PyErr.runtimeError ("nu")) := by
  unfold makeModelCov3parRest
  rw [show resolveSigma pf (ryOf z) (PyArg.str ("CSK"))
      = Except.ok (SigmaNode.stochastic (PyNum.q (ryOf z / 4)) sigmaLogpCSK)
    from rfl]
  rw [show resolveTau pf z.cont_cad z.rj (PyArg.str ("CSK"))
      = Except.ok (TauNode.stochastic (PyNum.sqrtQ (z.rj * z.cont_cad))
          (tauLogpCSK z.cont_cad)) from rfl]
  rw [resolveNuCov3par_bad pf (nuLimitsFor cf) nuInit np h1 h5]

/-- C2: a use_sigprior outside CSK, Vague, Gamma, None that float() cannot
convert makes both builders raise RuntimeError before any likelihood node
is built; likewise for use_tauprior outside CSK, Vague, IG, None and for
use_nuprior other than Uniform; conversely, float-convertible selector
values fix all three parameters to their floats and no error is raised
(the other selectors are at their defaults in each clause, and
make_model_cov3par runs with a recognized covfunc). -/
theorem prior_dispatch_spec (pf : String → Option ℚ) (z : Zydata) :
    (∀ sp tp np : PyArg, sp ≠ PyArg.str ("CSK") → sp ≠ PyArg.str ("Vague") →
      sp ≠ PyArg.str ("Gamma") → sp ≠ PyArg.str ("None") →
      pyFloat pf sp = none →
      makeModelPowexp pf z sp tp np
        = Except.error (PyErr.runtimeError ("sigma")))
    ∧ (∀ tp np : PyArg, tp ≠ PyArg.str ("CSK") → tp ≠ PyArg.str ("Vague") →
      tp ≠ PyArg.str ("IG") → tp ≠ PyArg.str ("None") →
      pyFloat pf tp = none →
      makeModelPowexp pf z (PyArg.str ("CSK")) tp np
        = Except.error (PyErr.runtimeError ("tau")))
    ∧ (∀ np : PyArg, np ≠ PyArg.str ("Uniform") → pyFloat pf np = none →
      makeModelPowexp pf z (PyArg.str ("CSK")) (PyArg.str ("CSK")) np
        = Except.error (PyErr.runtimeError ("nu")))
    ∧ (∀ (cf : String) (ni : ℚ) (sp tp np : PyArg) (gi : Option (List PyNum)),
      nuInitFor cf = some ni →
      sp ≠ PyArg.str ("CSK") → sp ≠ PyArg.str ("Vague") →
      sp ≠ PyArg.str ("Gamma") → sp ≠ PyArg.str ("None") →
      pyFloat pf sp = none →
      makeModelCov3par pf z cf sp tp np gi
        = Except.error (PyErr.runtimeError ("sigma")))
    ∧ (∀ (cf : String) (ni : ℚ) (tp np : PyArg) (gi : Option (List PyNum)),
      nuInitFor cf = some ni →
      tp ≠ PyArg.str ("CSK") → tp ≠ PyArg.str ("Vague") →
      tp ≠ PyArg.str ("IG") → tp ≠ PyArg.str ("None") →
      pyFloat pf tp = none →
      makeModelCov3par pf z cf (PyArg.str ("CSK")) tp np gi
        = Except.error (PyErr.runtimeError ("tau")))
    ∧ (∀ (cf : String) (ni : ℚ) (np : PyArg) (gi : Option (List PyNum)),
      nuInitFor cf = some ni →
      np ≠ PyArg.str ("Uniform") → pyFloat pf np = none →
      makeModelCov3par pf z cf (PyArg.str ("CSK")) (PyArg.str ("CSK")) np gi
        = Except.error (PyErr.runtimeError ("nu")))
    ∧ (∀ (sp tp np : PyArg) (xs xt xn : ℚ),
      sp ≠ PyArg.str ("CSK") → sp ≠ PyArg.str ("Vague") →
      sp ≠ PyArg.str ("Gamma") → sp ≠ PyArg.str ("None") →
      tp ≠ PyArg.str ("CSK") → tp ≠ PyArg.str ("Vague") →
      tp ≠ PyArg.str ("IG") → tp ≠ PyArg.str ("None") →
      np ≠ PyArg.str ("Uniform") →
      pyFloat pf sp = some xs → pyFloat pf tp = some xt →
      pyFloat pf np = some xn →
      makeModelPowexp pf z sp tp np
        = Except.ok { sigma := SigmaNode.fixed xs, tau := TauNode.fixed xt,
                      nu := NuNode.fixed xn,
                      guess := [PyNum.sqrtQ (z.rj * z.cont_cad),
                                PyNum.q (ryOf z / 4), PyNum.q 1],
                      covfunc := "pow_exp", zydata := z })
    ∧ (∀ (cf : String) (ni : ℚ) (sp tp np : PyArg) (xs xt xn : ℚ),
      nuInitFor cf = some ni →
      sp ≠ PyArg.str ("CSK") → sp ≠ PyArg.str ("Vague") →
      sp ≠ PyArg.str ("Gamma") → sp ≠ PyArg.str ("None") →
      tp ≠ PyArg.str ("CSK") → tp ≠ PyArg.str ("Vague") →
      tp ≠ PyArg.str ("IG") → tp ≠ PyArg.str ("None") →
      np ≠ PyArg.str ("Uniform") →
      pyFloat pf sp = some xs → pyFloat pf tp = some xt →
      pyFloat pf np = some xn →
      makeModelCov3par pf z cf sp tp np Option.none
        = Except.ok { sigma := SigmaNode.fixed xs, tau := TauNode.fixed xt,
                      nu := NuNode.fixed xn,
                      guess := [PyNum.q (ryOf z / 4),
                                PyNum.sqrtQ (z.rj * z.cont_cad), PyNum.q ni],
                      covfunc := cf, zydata := z }) := by
  refine ⟨?_, ?_, ?_, ?_, ?_, ?_, ?_, ?_⟩
  · intro sp tp np h1 h2 h3 h4 h5
    unfold makeModelPowexp
    rw [resolveSigma_bad pf (ryOf z) sp h1 h2 h3 h4 h5]
  · intro tp np h1 h2 h3 h4 h5
    unfold makeModelPowexp
    rw [show resolveSigma pf (ryOf z) (PyArg.str ("CSK"))
        = Except.ok (SigmaNode.stochastic (PyNum.q (ryOf z / 4)) sigmaLogpCSK)
      from rfl]
    rw [resolveTau_bad pf z.cont_cad z.rj tp h1 h2 h3 h4 h5]
  · intro np h1 h5
    unfold makeModelPowexp
    rw [show resolveSigma pf (ryOf z) (PyArg.str ("CSK"))
        = Except.ok (SigmaNode.stochastic (PyNum.q (ryOf z / 4)) sigmaLogpCSK)
      from rfl]
    rw [show resolveTau pf z.cont_cad z.rj (PyArg.str ("CSK"))
        = Except.ok (TauNode.stochastic (PyNum.sqrtQ (z.rj * z.cont_cad))
            (tauLogpCSK z.cont_cad)) from rfl]
    rw [resolveNuPowexp_bad pf np h1 h5]
  · intro cf ni sp tp np gi hni h1 h2 h3 h4 h5
    cases gi with
    | none =>
      rw [makeModelCov3par_step pf z cf sp tp np Option.none _
          (parInitResolved_built cf (ryOf z) (z.rj * z.cont_cad) ni hni)]
      exact rest_sigma_bad pf z cf _ _ sp tp np h1 h2 h3 h4 h5
    | some given =>
      rw [makeModelCov3par_step pf z cf sp tp np (some given) _
          (parInitResolved_given cf (ryOf z) (z.rj * z.cont_cad) given)]
      exact rest_sigma_bad pf z cf _ _ sp tp np h1 h2 h3 h4 h5
  · intro cf ni tp np gi hni h1 h2 h3 h4 h5
    cases gi with
    | none =>
      rw [makeModelCov3par_step pf z cf (PyArg.str ("CSK")) tp np Option.none _
          (parInitResolved_built cf (ryOf z) (z.rj * z.cont_cad) ni hni)]
      exact rest_tau_bad pf z cf _ _ tp np h1 h2 h3 h4 h5
    | some given =>
      rw [makeModelCov3par_step pf z cf (PyArg.str ("CSK")) tp np (some given) _
          (parInitResolved_given cf (ryOf z) (z.rj * z.cont_cad) given)]
      exact rest_tau_bad pf z cf _ _ tp np h1 h2 h3 h4 h5
  · intro cf ni np gi hni h1 h5
    cases gi with
    | none =>
      rw [makeModelCov3par_step pf z cf (PyArg.str ("CSK")) (PyArg.str ("CSK"))
          np Option.none _
          (parInitResolved_built cf (ryOf z) (z.rj * z.cont_cad) ni hni)]
      exact rest_nu_bad pf z cf _ _ np h1 h5
    | some given =>
      rw [makeModelCov3par_step pf z cf (PyArg.str ("CSK")) (PyArg.str ("CSK"))
          np (some given) _
          (parInitResolved_given cf (ryOf z) (z.rj * z.cont_cad) given)]
      exact rest_nu_bad pf z cf _ _ np h1 h5
  · intro sp tp np xs xt xn h1 h2 h3 h4 h5 h6 h7 h8 h9 hxs hxt hxn
    unfold makeModelPowexp
    rw [resolveSigma_fix pf (ryOf z) sp xs h1 h2 h3 h4 hxs]
    rw [resolveTau_fix pf z.cont_cad z.rj tp xt h5 h6 h7 h8 hxt]
    rw [resolveNuPowexp_fix pf np xn h9 hxn]
  · intro cf ni sp tp np xs xt xn hni h1 h2 h3 h4 h5 h6 h7 h8 h9 hxs hxt hxn
    rw [makeModelCov3par_step pf z cf sp tp np Option.none _
        (parInitResolved_built cf (ryOf z) (z.rj * z.cont_cad) ni hni)]
    unfold makeModelCov3parRest
    rw [resolveSigma_fix pf (ryOf z) sp xs h1 h2 h3 h4 hxs]
    rw [resolveTau_fix pf z.cont_cad z.rj tp xt h5 h6 h7 h8 hxt]
    rw [resolveNuCov3par_fix pf (nuLimitsFor cf) _ np xn h9 hxn]

/-- C2 witness: an unrecognized non-convertible sigma selector raises, and
three numeric selectors fix the parameters without error. -/
theorem prior_dispatch_witness :
    makeModelPowexp pf0 z0 (PyArg.str ("bogus")) (PyArg.str ("CSK"))
        (PyArg.str ("Uniform"))
      = Except.error (PyErr.runtimeError ("sigma"))
    ∧ makeModelPowexp pf0 z0 (PyArg.str ("3.5")) (PyArg.num 7)
        (PyArg.num (1 / 2))
      = Except.ok { sigma := SigmaNode.fixed (7 / 2), tau := TauNode.fixed 7,
                    nu := NuNode.fixed (1 / 2),
                    guess := [PyNum.sqrtQ (z0.rj * z0.cont_cad),
                              PyNum.q (ryOf z0 / 4), PyNum.q 1],
                    covfunc := "pow_exp", zydata := z0 }
    ∧ makeModelCov3par pf0 z0 ("pow_exp") (PyArg.str ("CSK")) (PyArg.str ("CSK"))
        (PyArg.str ("nope")) Option.none
      = Except.error (PyErr.runtimeError ("nu")) := by
  refine ⟨?_, ?_, ?_⟩
  · exact (prior_dispatch_spec pf0 z0).1 (PyArg.str ("bogus"))
      (PyArg.str ("CSK")) (PyArg.str ("Uniform"))
      (by decide) (by decide) (by decide) (by decide) (by decide)
  · exact (prior_dispatch_spec pf0 z0).2.2.2.2.2.2.1 (PyArg.str ("3.5"))
      (PyArg.num 7) (PyArg.num (1 / 2)) (7 / 2) 7 (1 / 2)
      (by decide) (by decide) (by decide) (by decide) (by decide) (by decide)
      (by decide) (by decide) (by decide) (by rfl) (by rfl) (by rfl)
  · exact (prior_dispatch_spec pf0 z0).2.2.2.2.2.1 ("pow_exp") 1
      (PyArg.str ("nope")) Option.none (by rfl) (by decide) (by rfl)

/-- C5: under the CSK tau prior of either builder, with a positive cadence
below the hard bound 10000, the logp is -log(value/cadence) on
(cadence, 10000), -log(cadence/value) on (0, cadence], negative infinity
otherwise, and equals -abs(log(value/cadence)) on (0, 10000); the initial
value is sqrt(rj * cadence). -/
theorem tau_csk_spec (pf : String → Option ℚ) (z : Zydata)
    (hc : 0 < z.cont_cad) (hcM : z.cont_cad < 10000) :
    ((makeModelPowexp pf z (PyArg.str ("CSK")) (PyArg.str ("CSK"))
        (PyArg.str ("Uniform"))).map Model.tau
      = Except.ok (TauNode.stochastic (PyNum.sqrtQ (z.rj * z.cont_cad))
          (tauLogpCSK z.cont_cad)))
    ∧ ((makeModelCov3par pf z ("pow_exp") (PyArg.str ("CSK")) (PyArg.str ("CSK"))
        (PyArg.str ("Uniform")) Option.none).map Model.tau
      = Except.ok (TauNode.stochastic (PyNum.sqrtQ (z.rj * z.cont_cad))
          (tauLogpCSK z.cont_cad)))
    ∧ (∀ v : ℚ, z.cont_cad < v → v < 10000 →
        tauLogpCSK z.cont_cad v = LogDensity.negLog (v / z.cont_cad))
    ∧ (∀ v : ℚ, 0 < v → v ≤ z.cont_cad →
        tauLogpCSK z.cont_cad v = LogDensity.negLog (z.cont_cad / v))
    ∧ (∀ v : ℚ, v ≤ 0 ∨ 10000 ≤ v →
        tauLogpCSK z.cont_cad v = LogDensity.negInf)
    ∧ (∀ v : ℚ, 0 < v → v < 10000 → ∃ q : ℚ,
        tauLogpCSK z.cont_cad v = LogDensity.negLog q
        ∧ Real.log (q : ℝ) = |Real.log ((v : ℝ) / (z.cont_cad : ℝ))|) := by
  refine ⟨rfl, rfl, ?_, ?_, ?_, ?_⟩
  · intro v h1 h2
    unfold tauLogpCSK
    rw [if_pos ⟨h2, h1⟩]
  · intro v h1 h2
    unfold tauLogpCSK
    rw [if_neg (by rintro ⟨hA, hB⟩; linarith), if_pos ⟨h1, h2⟩]
  · intro v hv
    unfold tauLogpCSK
    rcases hv with h | h
    · rw [if_neg (by rintro ⟨hA, hB⟩; linarith),
        if_neg (by rintro ⟨hA, hB⟩; linarith)]
    · rw [if_neg (by rintro ⟨hA, hB⟩; linarith),
        if_neg (by rintro ⟨hA, hB⟩; linarith)]
  · intro v h1 h2
    have hcR : (0 : ℝ) < (z.cont_cad : ℝ) := by exact_mod_cast hc
    have hvR : (0 : ℝ) < (v : ℝ) := by exact_mod_cast h1
    by_cases hvc : z.cont_cad < v
    · refine ⟨v / z.cont_cad, ?_, ?_⟩
      · unfold tauLogpCSK
        rw [if_pos ⟨h2, hvc⟩]
      · have hge : (1 : ℝ) ≤ (v : ℝ) / (z.cont_cad : ℝ) :=
          (one_le_div hcR).mpr (by exact_mod_cast le_of_lt hvc)
        rw [abs_of_nonneg (Real.log_nonneg hge)]
        push_cast
        rfl
    · push_neg at hvc
      refine ⟨z.cont_cad / v, ?_, ?_⟩
      · unfold tauLogpCSK
        rw [if_neg (by rintro ⟨hA, hB⟩; linarith), if_pos ⟨h1, hvc⟩]
      · have hle : (v : ℝ) / (z.cont_cad : ℝ) ≤ 1 :=
          (div_le_one hcR).mpr (by exact_mod_cast hvc)
        have hnn : (0 : ℝ) ≤ (v : ℝ) / (z.cont_cad : ℝ) :=
          le_of_lt (div_pos hvR hcR)
        rw [abs_of_nonpos (Real.log_nonpos hnn hle)]
        rw [show ((z.cont_cad / v : ℚ) : ℝ) = ((v : ℝ) / (z.cont_cad : ℝ))⁻¹
          by push_cast; rw [inv_div]]
        rw [Real.log_inv]

/-- C5 witness: at cadence 1, the CSK tau logp evaluates to the inner lobe
at 1/2, the outer lobe at 2, and negative infinity at 20000. -/
theorem tau_csk_witness :
    tauLogpCSK z0.cont_cad 2 = LogDensity.negLog (2 / z0.cont_cad)
    ∧ tauLogpCSK z0.cont_cad (1 / 2)
      = LogDensity.negLog (z0.cont_cad / (1 / 2))
    ∧ tauLogpCSK z0.cont_cad 20000 = LogDensity.negInf := by
  refine ⟨?_, ?_, ?_⟩
  · exact (tau_csk_spec pf0 z0 (by norm_num [z0]) (by norm_num [z0])).2.2.1 2
      (by norm_num [z0]) (by norm_num)
  · exact (tau_csk_spec pf0 z0 (by norm_num [z0]) (by norm_num [z0])).2.2.2.1
      (1 / 2) (by norm_num) (by norm_num [z0])
  · exact (tau_csk_spec pf0 z0 (by norm_num [z0])
      (by norm_num [z0])).2.2.2.2.1 20000 (Or.inr (by norm_num))

/-- C6: under the CSK sigma prior of either builder, the logp is
-log(value) for positive value and negative infinity for negative value,
and the initial value is ry/4 where ry is the spread max(marr) -
min(marr) of the magnitude array. -/
theorem sigma_csk_spec (pf : String → Option ℚ) (z : Zydata) :
    ((makeModelPowexp pf z (PyArg.str ("CSK")) (PyArg.str ("CSK"))
        (PyArg.str ("Uniform"))).map Model.sigma
      = Except.ok (SigmaNode.stochastic
          (PyNum.q ((npMax z.marr - npMin z.marr) / 4)) sigmaLogpCSK))
    ∧ ((makeModelCov3par pf z ("pow_exp") (PyArg.str ("CSK")) (PyArg.str ("CSK"))
        (PyArg.str ("Uniform")) Option.none).map Model.sigma
      = Except.ok (SigmaNode.stochastic
          (PyNum.q ((npMax z.marr - npMin z.marr) / 4)) sigmaLogpCSK))
    ∧ (∀ v : ℚ, 0 < v → sigmaLogpCSK v = LogDensity.negLog v)
    ∧ (∀ v : ℚ, v < 0 → sigmaLogpCSK v = LogDensity.negInf) := by
  refine ⟨rfl, rfl, ?_, ?_⟩
  · intro v h
    unfold sigmaLogpCSK
    rw [if_pos h]
  · intro v h
    unfold sigmaLogpCSK
    rw [if_neg (by linarith), if_pos h]

/-- C6 witness: the CSK sigma logp at 2 and at -1. -/
theorem sigma_csk_witness :
    sigmaLogpCSK 2 = LogDensity.negLog 2
    ∧ sigmaLogpCSK (-1) = LogDensity.negInf :=
  ⟨(sigma_csk_spec pf0 z0).2.2.1 2 (by norm_num),
   (sigma_csk_spec pf0 z0).2.2.2 (-1) (by norm_num)⟩

/-- C7: under Vague (alpha 0.001, beta 0.001) and under Gamma (alpha 2,
beta 1/(ry/4)^2), both builders create a Gamma-distributed invsigsq with
initial value 1/(ry/4)^2 and define sigma as the deterministic transform
1/sqrt(invsigsq), which at every positive invsigsq equals
1/sqrt(invsigsq). -/
theorem sigma_gamma_spec (pf : String → Option ℚ) (z : Zydata) :
    ((makeModelPowexp pf z (PyArg.str ("Vague")) (PyArg.str ("CSK"))
        (PyArg.str ("Uniform"))).map Model.sigma
      = Except.ok (SigmaNode.detFromGamma (1 / 1000) (1 / 1000)
          (invRySq (ryOf z)) SigmaTransform.invSqrt))
    ∧ ((makeModelPowexp pf z (PyArg.str ("Gamma")) (PyArg.str ("CSK"))
        (PyArg.str ("Uniform"))).map Model.sigma
      = Except.ok (SigmaNode.detFromGamma 2 (invRySq (ryOf z))
          (invRySq (ryOf z)) SigmaTransform.invSqrt))
    ∧ ((makeModelCov3par pf z ("pow_exp") (PyArg.str ("Vague"))
        (PyArg.str ("CSK")) (PyArg.str ("Uniform")) Option.none).map
          Model.sigma
      = Except.ok (SigmaNode.detFromGamma (1 / 1000) (1 / 1000)
          (invRySq (ryOf z)) SigmaTransform.invSqrt))
    ∧ ((makeModelCov3par pf z ("pow_exp") (PyArg.str ("Gamma"))
        (PyArg.str ("CSK")) (PyArg.str ("Uniform")) Option.none).map
          Model.sigma
      = Except.ok (SigmaNode.detFromGamma 2 (invRySq (ryOf z))
          (invRySq (ryOf z)) SigmaTransform.invSqrt))
    ∧ invRySq (ryOf z) = 1 / (ryOf z / 4) ^ 2
    ∧ (∀ x : ℚ, 0 < x →
        SigmaTransform.eval SigmaTransform.invSqrt x
          = 1 / Real.sqrt ((x : ℚ) : ℝ)) :=
  ⟨rfl, rfl, rfl, rfl, rfl, fun x _ => rfl⟩

/-- C7 witness: the invSqrt transform evaluated at the positive input 4. -/
theorem sigma_gamma_witness :
    SigmaTransform.eval SigmaTransform.invSqrt 4
      = 1 / Real.sqrt ((4 : ℚ) : ℝ) :=
  (sigma_gamma_spec pf0 z0).2.2.2.2.2 4 (by norm_num)

/-- C9: under use_sigprior None, both builders define sigma as the clamped
deterministic transform of the Uninformative invsigsq (initial value
1/(ry/4)^2); the transform is total: 1e6 when abs(invsigsq) < 1e-6,
1/sqrt(abs(invsigsq)) otherwise, and its value is always positive. -/
theorem sigma_none_spec (pf : String → Option ℚ) (z : Zydata) :
    ((makeModelPowexp pf z (PyArg.str ("None")) (PyArg.str ("CSK"))
        (PyArg.str ("Uniform"))).map Model.sigma
      = Except.ok (SigmaNode.detFromUninformative (invRySq (ryOf z))
          SigmaTransform.clamped))
    ∧ ((makeModelCov3par pf z ("pow_exp") (PyArg.str ("None"))
        (PyArg.str ("CSK")) (PyArg.str ("Uniform")) Option.none).map
          Model.sigma
      = Except.ok (SigmaNode.detFromUninformative (invRySq (ryOf z))
          SigmaTransform.clamped))
    ∧ (∀ x : ℚ, SigmaTransform.eval SigmaTransform.clamped x
        = if |x| < 1 / 1000000 then (1000000 : ℝ)
          else 1 / Real.sqrt ((|x| : ℚ) : ℝ))
    ∧ (∀ x : ℚ, 0 < SigmaTransform.eval SigmaTransform.clamped x) := by
  refine ⟨rfl, rfl, fun x => rfl, ?_⟩
  intro x
  rw [show SigmaTransform.eval SigmaTransform.clamped x
      = if |x| < 1 / 1000000 then (1000000 : ℝ)
        else 1 / Real.sqrt ((|x| : ℚ) : ℝ) from rfl]
  by_cases h : |x| < 1 / 1000000
  · rw [if_pos h]
    norm_num
  · have h1 : (1 / 1000000 : ℚ) ≤ |x| := le_of_not_lt h
    have h2 : (0 : ℚ) < |x| := lt_of_lt_of_le (by norm_num) h1
    have h3 : (0 : ℝ) < ((|x| : ℚ) : ℝ) := by exact_mod_cast h2
    rw [if_neg h]
    exact one_div_pos.mpr (Real.sqrt_pos.mpr h3)

lemma makeModelPowexp_core_eq (pf : String → Option ℚ) (z : Zydata)
    (sp tp np : PyArg) :
    (makeModelPowexp pf z sp tp np).map Model.core
      = powexpCore pf z.cont_cad z.rj z.marr sp tp np := by
  unfold makeModelPowexp powexpCore ryOf
  cases resolveSigma pf (npMax z.marr - npMin z.marr) sp with
  | error e => rfl
  | ok s =>
    cases resolveTau pf z.cont_cad z.rj tp with
    | error e => rfl
    | ok t =>
      cases resolveNuPowexp pf np with
      | error e => rfl
      | ok n => rfl

lemma makeModelCov3par_core_eq (pf : String → Option ℚ) (z : Zydata)
    (cf : String) (sp tp np : PyArg) (gi : Option (List PyNum)) :
    (makeModelCov3par pf z cf sp tp np gi).map Model.core
      = cov3parCore pf z.cont_cad z.rj z.marr cf sp tp np gi := by
  unfold makeModelCov3par cov3parCore ryOf
  cases parInitResolved cf (npMax z.marr - npMin z.marr) (z.rj * z.cont_cad) gi with
  | error e => rfl
  | ok p =>
    show (makeModelCov3parRest pf z cf p.1 p.2 sp tp np).map Model.core
        = cov3parCoreRest pf z.cont_cad z.rj z.marr cf p.1 p.2 sp tp np
    unfold makeModelCov3parRest cov3parCoreRest ryOf
    cases resolveSigma pf (npMax z.marr - npMin z.marr) sp with
    | error e => rfl
    | ok s =>
      cases resolveTau pf z.cont_cad z.rj tp with
      | error e => rfl
      | ok t =>
        cases resolveNuCov3par pf (nuLimitsFor cf) p.2 np with
        | error e => rfl
        | ok n => rfl

/-- C10: the builders never write to the dataset: the dataset captured by
the built model is the input object itself, and every other component of
the resulting model (and the whole error behaviour) depends only on the
fields cont_cad, rj and marr, so replacing the remaining attributes leaves
everything except the captured reference unchanged. -/
theorem zydata_frame_spec (pf : String → Option ℚ) (z : Zydata) (n : ℕ)
    (sp tp np : PyArg) (cf : String) (gi : Option (List PyNum)) :
    ((makeModelPowexp pf z sp tp np).map Model.zydata
      = (makeModelPowexp pf z sp tp np).map (fun _ => z))
    ∧ ((makeModelCov3par pf z cf sp tp np gi).map Model.zydata
      = (makeModelCov3par pf z cf sp tp np gi).map (fun _ => z))
    ∧ ((makeModelPowexp pf (Zydata.mk z.cont_cad z.rj z.marr n) sp tp np).map
          Model.core
      = (makeModelPowexp pf z sp tp np).map Model.core)
    ∧ ((makeModelCov3par pf (Zydata.mk z.cont_cad z.rj z.marr n) cf sp tp np
          gi).map Model.core
      = (makeModelCov3par pf z cf sp tp np gi).map Model.core) := by
  refine ⟨?_, ?_, ?_, ?_⟩
  · unfold makeModelPowexp
    cases resolveSigma pf (ryOf z) sp with
    | error e => rfl
    | ok s =>
      cases resolveTau pf z.cont_cad z.rj tp with
      | error e => rfl
      | ok t =>
        cases resolveNuPowexp pf np with
        | error e => rfl
        | ok n2 => rfl
  · unfold makeModelCov3par
    cases parInitResolved cf (ryOf z) (z.rj * z.cont_cad) gi with
    | error e => rfl
    | ok p =>
      show (makeModelCov3parRest pf z cf p.1 p.2 sp tp np).map Model.zydata
          = (makeModelCov3parRest pf z cf p.1 p.2 sp tp np).map (fun _ => z)
      unfold makeModelCov3parRest
      cases resolveSigma pf (ryOf z) sp with
      | error e => rfl
      | ok s =>
        cases resolveTau pf z.cont_cad z.rj tp with
        | error e => rfl
        | ok t =>
          cases resolveNuCov3par pf (nuLimitsFor cf) p.2 np with
          | error e => rfl
          | ok n2 => rfl
  · rw [makeModelPowexp_core_eq, makeModelPowexp_core_eq]
  · rw [makeModelCov3par_core_eq, makeModelCov3par_core_eq]
